import Mathlib

/-!
Shallow embedding of the clima_alerta hybrid risk decision engine and its
adaptive retraining loop (analizador.py, predictor.py, modelo_adaptativo.py,
db_manager.py).

Modelling conventions:
* Python dicts with possibly-missing keys become structures of Option fields;
  a `datos[clave]` access is `getClave`, which raises (Except.error) on a
  missing key, as Python raises KeyError.
* Numeric values are rationals.
* Side effects (logger calls, DB inserts, Telegram sends) are recorded as an
  ordered list of `Evento` values; the ids returned by the two DB inserts are
  supplied by a `DBOracle` (None models a failed insert, as
  DBManager._execute_write_query returns None on an sqlite error).
* The trained classifier is opaque: a function from the feature triple to an
  optional (class, probability) pair, None modelling an exception inside the
  library call (predictor.py catches it and returns None).
-/

/-- A climate reading as produced by the collector (a Python dict with keys
timestamp, temperatura, humedad, lluvia, clima, viento_kmh). Each key may be
absent in a malformed reading. The timestamp and condition text are opaque
strings. -/
structure DatosClima where
  timestamp : Option String
  temperatura : Option ℚ
  humedad : Option ℚ
  lluvia : Option ℚ
  clima : Option String
  viento_kmh : Option ℚ
deriving Repr, DecidableEq

/-- The threshold snapshot (the `umbrales` config dict). The four rule bounds
are accessed with mandatory lookups; `umbral_ia_probabilidad` is read with
.get and default 0.75 (analizador.py line 45), so it may be unset. -/
structure Umbrales where
  limite_temp_max : ℚ
  limite_temp_min : ℚ
  limite_humedad : ℚ
  limite_lluvia_mm : ℚ
  umbral_ia_probabilidad : Option ℚ
deriving Repr, DecidableEq

/-- `datos[clave]`: a Python dict access that raises KeyError when absent. -/
def getClave {α : Type} (v : Option α) (clave : String) : Except String α :=
  match v with
  | some x => Except.ok x
  | none => Except.error ("KeyError: " ++ clave)

/-- An opaque trained classifier (the joblib artifact): predict and
predict_proba on one feature triple (temperatura, humedad, lluvia), giving a
binary class and the probability of the positive class; `none` models an
exception raised inside the library call. -/
def Modelo : Type := ℚ × ℚ × ℚ → Option (ℤ × ℚ)

/-- predictor.Predictor: holds the loaded model or None. -/
structure Predictor where
  modelo : Option Modelo

/-- Predictor.predecir (predictor.py lines 24-52): returns None when no model
is loaded or when the underlying prediction raises; otherwise the
(binary class, risk probability) pair. -/
def Predictor.predecir (p : Predictor) (temperatura humedad lluvia : ℚ) :
    Option (ℤ × ℚ) :=
  match p.modelo with
  | none => none
  | some m => m (temperatura, humedad, lluvia)

/-- One piece of the interpolated alert f-string: literal text, a plain
numeric interpolation, or the `:.1%` percent formatting of the risk
probability. -/
inductive Fragmento where
  | lit (s : String)
  | num (q : ℚ)
  | pct (q : ℚ)
deriving Repr, DecidableEq

/-- An observable side effect of the analysis cycle, in emission order. -/
inductive Evento where
  | logInfo (msg : String)
  | logWarning (msg : String)
  | logError (msg : String)
  | logCritical (msg : String)
  | insertHistorico (timestamp : String) (temperatura humedad lluvia : ℚ)
      (clima : String) (viento_kmh : ℚ)
  | insertAlerta (tipo_alerta : String) (descripcion : List Fragmento)
      (clima_id : ℕ)
  | enviarAlertaGeneral (mensaje : List Fragmento) (alerta_id : ℕ)
  | sendErrorNotif (modulo : String) (error_txt : String)
  | enviarAlertaPronostico (fecha : String) (lluvia : ℚ) (descripcion : String)
deriving Repr, DecidableEq

/-- Ids returned by the two DB inserts the engine performs in one cycle
(DBManager._execute_write_query: the new rowid, or None on sqlite error). -/
structure DBOracle where
  historicoId : Option ℕ
  alertaId : Option ℕ
deriving Repr, DecidableEq

/-- Body of the alert f-string (analizador.py lines 103-114): the reason list
`motivo`, joined with " y ", and the interpolated raw values; the risk
probability is rendered with `:.1%`. -/
def mensaje_fragmentos (t h ll : ℚ) (por_umbral por_ia : Bool) (prob_ia : ℚ) :
    List Fragmento :=
  let motivo := (if por_umbral then ["Umbrales Superados"] else []) ++
                (if por_ia then ["Predicción IA"] else [])
  [Fragmento.lit "⚠️ *ALERTA CLIMÁTICA DETECTADA*\nMotivo: *",
   Fragmento.lit (String.intercalate " y " motivo),
   Fragmento.lit "*\n\n🌡️ Temperatura: *", Fragmento.num t,
   Fragmento.lit "°C*\n💧 Humedad: *", Fragmento.num h,
   Fragmento.lit "%*\n🌧️ Lluvia: *", Fragmento.num ll,
   Fragmento.lit " mm*\n\n🤖 Análisis IA (Prob. de Riesgo): *",
   Fragmento.pct prob_ia, Fragmento.lit "*"]

/-- Analizador._construir_mensaje_alerta (analizador.py lines 101-114): the
dict accesses of the f-string, in source order, then the fragment list. -/
def construir_mensaje_alerta (datos : DatosClima) (por_umbral por_ia : Bool)
    (prob_ia : ℚ) : Except String (List Fragmento) := do
  let t ← getClave datos.temperatura "temperatura"
  let h ← getClave datos.humedad "humedad"
  let ll ← getClave datos.lluvia "lluvia"
  pure (mensaje_fragmentos t h ll por_umbral por_ia prob_ia)

/-- The rule disjunction `riesgo_umbral` (analizador.py lines 27-32). Python
`or` short-circuits, so the humedad and lluvia accesses are skipped once an
earlier bound is breached. -/
def evaluacion_umbral (datos : DatosClima) (u : Umbrales) :
    Except String Bool := do
  let t ← getClave datos.temperatura "temperatura"
  if t ≥ u.limite_temp_max then pure true
  else if t ≤ u.limite_temp_min then pure true
  else do
    let h ← getClave datos.humedad "humedad"
    if h ≥ u.limite_humedad then pure true
    else do
      let ll ← getClave datos.lluvia "lluvia"
      pure (decide (ll ≥ u.limite_lluvia_mm))

/-- The model path (analizador.py lines 34-46): only entered when a model is
loaded; obtains (class, probability) from Predictor.predecir, and fires iff
the probability reaches `umbral_ia_probabilidad` (default 0.75). Returns the
pair (probabilidad_riesgo_ia, riesgo_ia). -/
def evaluacion_ia (datos : DatosClima) (u : Umbrales) (p : Predictor) :
    Except String (ℚ × Bool) := do
  match p.modelo with
  | none => pure ((0 : ℚ), false)
  | some _ => do
    let t ← getClave datos.temperatura "temperatura"
    let h ← getClave datos.humedad "humedad"
    let ll ← getClave datos.lluvia "lluvia"
    match p.predecir t h ll with
    | none => pure ((0 : ℚ), false)
    | some res =>
      pure (res.2, decide (res.2 ≥ u.umbral_ia_probabilidad.getD (0.75 : ℚ)))

/-- The final fused decision of analizador.py line 49:
`riesgo_umbral or riesgo_ia`. -/
def decision_final (datos : DatosClima) (u : Umbrales) (p : Predictor) :
    Except String Bool := do
  let ru ← evaluacion_umbral datos u
  let res ← evaluacion_ia datos u p
  pure (ru || res.2)

/-- Analizador.analizar before its try/except (analizador.py lines 26-67):
rule evaluation, model evaluation, and on alert the message construction, the
historico insert, the alert insert guarded by the truthiness of the returned
id, and the notification guarded by the truthiness of the alert id. -/
def analizar_body (datos : DatosClima) (u : Umbrales) (p : Predictor)
    (db : DBOracle) : Except String (List Evento) := do
  let riesgo_umbral ← evaluacion_umbral datos u
  let res ← evaluacion_ia datos u p
  let probabilidad_riesgo_ia := res.1
  let riesgo_ia := res.2
  if riesgo_umbral || riesgo_ia then do
    let mensaje ← construir_mensaje_alerta datos riesgo_umbral riesgo_ia
      probabilidad_riesgo_ia
    let ts ← getClave datos.timestamp "timestamp"
    let t ← getClave datos.temperatura "temperatura"
    let h ← getClave datos.humedad "humedad"
    let ll ← getClave datos.lluvia "lluvia"
    let c ← getClave datos.clima "clima"
    let viento := datos.viento_kmh.getD 0
    let ev1 := Evento.insertHistorico ts t h ll c viento
    match db.historicoId with
    | none => pure [ev1]
    | some clima_id =>
      if clima_id = 0 then pure [ev1]
      else
        let tipo := if riesgo_ia && !riesgo_umbral then "ia" else "umbral"
        let ev2 := Evento.insertAlerta ("riesgo_" ++ tipo) mensaje clima_id
        match db.alertaId with
        | none => pure [ev1, ev2]
        | some alerta_id =>
          if alerta_id = 0 then pure [ev1, ev2]
          else pure [ev1, ev2, Evento.enviarAlertaGeneral mensaje alerta_id]
  else
    pure [Evento.logInfo "Condiciones normales. No se requiere alerta."]

/-- Analizador.analizar (analizador.py lines 21-71): the whole evaluation is
wrapped in try/except; any exception is logged as critical and reported
through the notifier error channel, and the call returns normally. -/
def analizar (datos : DatosClima) (u : Umbrales) (p : Predictor)
    (db : DBOracle) : List Evento :=
  match analizar_body datos u p db with
  | Except.ok evs => evs
  | Except.error e =>
    [Evento.logCritical ("Error crítico en el proceso de análisis híbrido: " ++ e),
     Evento.sendErrorNotif "analizador_hibrido" e]

/-- One daily forecast entry (a dict from forecast_colector.get_forecast):
`fecha` and `clima` are mandatory accesses in analizar_pronostico, while
`lluvia` is read with .get and default 0. -/
structure DiaPronostico where
  fecha : Option String
  lluvia : Option ℚ
  clima : Option String
deriving Repr, DecidableEq

/-- The loop body of Analizador.analizar_pronostico (analizador.py lines
83-96) over the already-truncated day list. A KeyError on a missing key
aborts the remaining scan (the try wraps the whole loop) and is logged as an
error; a firing day logs a warning then sends the forecast advisory. -/
def analizar_pronostico_dias : List DiaPronostico → Umbrales → List Evento
  | [], _ => []
  | dia :: resto, u =>
    match dia.fecha with
    | none => [Evento.logError "Error analizando el pronóstico: KeyError: fecha"]
    | some fecha_pronostico =>
      let lluvia_prevista := dia.lluvia.getD 0
      if lluvia_prevista ≥ u.limite_lluvia_mm then
        match dia.clima with
        | none => [Evento.logError "Error analizando el pronóstico: KeyError: clima"]
        | some descripcion =>
          Evento.logWarning ("Se detectó pronóstico de lluvia significativa (" ++
              toString lluvia_prevista ++ " mm) para el día " ++
              fecha_pronostico ++ ".") ::
          Evento.enviarAlertaPronostico fecha_pronostico lluvia_prevista
              descripcion ::
          analizar_pronostico_dias resto u
      else analizar_pronostico_dias resto u

/-- Analizador.analizar_pronostico (analizador.py lines 75-99): logs, then
scans only `pronostico_diario[:2]`. -/
def analizar_pronostico (pronostico_diario : List DiaPronostico)
    (u : Umbrales) : List Evento :=
  Evento.logInfo "Analizando pronóstico extendido..." ::
    analizar_pronostico_dias (pronostico_diario.take 2) u

/-- A row of the `historico` table (columns used by the training query);
NULL-able numeric columns are Options. -/
structure RegistroHistorico where
  id : ℕ
  temperatura : Option ℚ
  humedad : Option ℚ
  lluvia : Option ℚ
deriving Repr, DecidableEq

/-- A row of the `alertas_emitidas` table (columns used by the join). -/
structure RegistroAlerta where
  id : ℕ
  clima_id : ℕ
deriving Repr, DecidableEq

/-- A row of the `feedback_usuario` table (columns used by the join). -/
structure RegistroFeedback where
  alerta_id : ℕ
  feedback : String
deriving Repr, DecidableEq

/-- The three tables read by the training query. -/
structure BaseDatos where
  historico : List RegistroHistorico
  alertas_emitidas : List RegistroAlerta
  feedback_usuario : List RegistroFeedback
deriving Repr, DecidableEq

/-- The SQL join of ModeloAdaptativo._cargar_datos_entrenamiento
(modelo_adaptativo.py lines 26-37): feedback_usuario JOIN alertas_emitidas ON
f.alerta_id = a.id JOIN historico ON a.clima_id = h.id, keeping rows where
h.temperatura IS NOT NULL and f.feedback IN (bien, mal); the selected columns
are (temperatura, humedad, lluvia, feedback). -/
def consulta_entrenamiento (db : BaseDatos) :
    List (Option ℚ × Option ℚ × Option ℚ × String) :=
  db.feedback_usuario.flatMap fun f =>
    db.alertas_emitidas.flatMap fun a =>
      (db.historico.filter fun h =>
        f.alerta_id == a.id && a.clima_id == h.id &&
        h.temperatura.isSome && (f.feedback == "bien" || f.feedback == "mal")).map
        fun h => (h.temperatura, h.humedad, h.lluvia, f.feedback)

/-- ModeloAdaptativo._cargar_datos_entrenamiento (modelo_adaptativo.py lines
24-57): None when the query yields no rows; otherwise the (X, y) pair built
by keeping only rows whose three features are all non-null, labelling
feedback "mal" as 1 and anything else (i.e. "bien") as 0. -/
def cargar_datos_entrenamiento (db : BaseDatos) :
    Option (List (ℚ × ℚ × ℚ) × List ℕ) :=
  let registros := consulta_entrenamiento db
  if registros.isEmpty then none
  else
    let filas := registros.filterMap fun r =>
      match r with
      | (some temp, some hum, some lluvia, feedback) =>
        some ((temp, hum, lluvia), if feedback == "mal" then (1 : ℕ) else 0)
      | _ => none
    some (filas.map Prod.fst, filas.map Prod.snd)

/-- The scikit-learn calls made by entrenar_y_guardar, injected as opaque
functions: train_test_split (test_size 0.25, random_state 42, stratify=y),
RandomForestClassifier(...).fit, .predict, and classification_report. -/
structure Sklearn where
  train_test_split : List (ℚ × ℚ × ℚ) → List ℕ →
    List (ℚ × ℚ × ℚ) × List (ℚ × ℚ × ℚ) × List ℕ × List ℕ
  fit : List (ℚ × ℚ × ℚ) → List ℕ → Modelo
  predict : Modelo → List (ℚ × ℚ × ℚ) → List ℕ
  classification_report : List ℕ → List ℕ → String

/-- Observable effects of one entrenar_y_guardar run. -/
inductive EventoEntrenamiento where
  | avisoInsuficiente (n : ℕ)
  | reporteClasif (texto : String)
  | modeloGuardado
  | errorAlGuardar
deriving Repr, DecidableEq

/-- ModeloAdaptativo.entrenar_y_guardar (modelo_adaptativo.py lines 59-97).
`archivo` is the artifact file before the run; `dump_ok` tells whether the
joblib.dump write succeeds (its try/except logs an error on failure). The
result is the emitted events and the artifact file after the run. Below 20
valid rows (or when loading yields None) only the warning is logged and the
file is untouched; otherwise the model fit on the split is evaluated, the
classification report logged, and the fit model written to the file. -/
def entrenar_y_guardar (sk : Sklearn) (db : BaseDatos) (dump_ok : Bool)
    (archivo : Option Modelo) : List EventoEntrenamiento × Option Modelo :=
  match cargar_datos_entrenamiento db with
  | none => ([EventoEntrenamiento.avisoInsuficiente 0], archivo)
  | some (X, y) =>
    if X.length < 20 then
      ([EventoEntrenamiento.avisoInsuficiente X.length], archivo)
    else
      let res := sk.train_test_split X y
      let modelo := sk.fit res.1 res.2.2.1
      let y_pred := sk.predict modelo res.2.1
      let reporte := sk.classification_report res.2.2.2 y_pred
      if dump_ok then
        ([EventoEntrenamiento.reporteClasif reporte,
          EventoEntrenamiento.modeloGuardado], some modelo)
      else
        ([EventoEntrenamiento.reporteClasif reporte,
          EventoEntrenamiento.errorAlGuardar], archivo)

/-- ModeloAdaptativo.cargar_modelo (modelo_adaptativo.py lines 99-111):
joblib.load of the artifact file; an absent file (FileNotFoundError) yields
None. -/
def cargar_modelo (archivo : Option Modelo) : Option Modelo := archivo

/-- Whether a substring check: `esPrefijo pat l` holds when pat is a prefix
of l (character-wise). -/
def esPrefijo : List Char → List Char → Bool
  | [], _ => true
  | _ :: _, [] => false
  | a :: as, b :: bs => a == b && esPrefijo as bs

/-- `contieneSub pat l`: pat occurs as a contiguous substring of l. -/
def contieneSub (pat : List Char) : List Char → Bool
  | [] => esPrefijo pat []
  | c :: cs => esPrefijo pat (c :: cs) || contieneSub pat cs

/-- A fragment mentions a text when it is a literal containing it. -/
def fragmento_menciona (s : String) : Fragmento → Bool
  | Fragmento.lit t => contieneSub s.data t.data
  | _ => false

/-- A composed message mentions a text when some fragment does. -/
def menciona (frags : List Fragmento) (s : String) : Bool :=
  frags.any (fragmento_menciona s)

def esPersistencia : Evento → Bool
  | Evento.insertHistorico _ _ _ _ _ _ => true
  | Evento.insertAlerta _ _ _ => true
  | _ => false

def datosEjemplo : DatosClima :=
  ⟨some "2024-01-01 12:00", some 38, some 50, some 0, some "Cielo claro", some 10⟩

def datosMalformado : DatosClima := ⟨none, none, none, none, none, none⟩

def umbralesEjemplo : Umbrales := ⟨35, 0, 90, 50, none⟩

def predictorVacio : Predictor := ⟨none⟩

def oraculoEjemplo : DBOracle := ⟨some 1, some 1⟩

def skEjemplo : Sklearn :=
  ⟨fun X y => (X, [], y, []), fun _ _ => fun _ => none, fun _ _ => [],
   fun _ _ => "reporte"⟩

def dbVacia : BaseDatos := ⟨[], [], []⟩

def dbVeinte : BaseDatos :=
  ⟨[⟨1, some 30, some 80, some 5⟩], [⟨1, 1⟩],
   List.replicate 20 ⟨1, "bien"⟩⟩

def diaLluvioso : DiaPronostico :=
  ⟨some "2024-01-02", some 80, some "Lluvia fuerte"⟩

def diaSeco : DiaPronostico := ⟨some "2024-01-03", none, some "Despejado"⟩

def pronEjemplo : List DiaPronostico := [diaLluvioso, diaSeco, diaLluvioso]

@[simp] theorem except_bind_ok {α β : Type} (a : α) (f : α → Except String β) :
    (Except.ok a : Except String α) >>= f = f a := rfl

@[simp] theorem except_bind_error {α β : Type} (e : String)
    (f : α → Except String β) :
    (Except.error e : Except String α) >>= f = Except.error e := rfl

@[simp] theorem except_pure_eq {α : Type} (a : α) :
    (pure a : Except String α) = Except.ok a := rfl

theorem evaluacion_umbral_ok (datos : DatosClima) (u : Umbrales) (t h ll : ℚ)
    (ht : datos.temperatura = some t) (hh : datos.humedad = some h)
    (hl : datos.lluvia = some ll) :
    evaluacion_umbral datos u =
      Except.ok (decide (t ≥ u.limite_temp_max) || decide (t ≤ u.limite_temp_min) ||
        decide (h ≥ u.limite_humedad) || decide (ll ≥ u.limite_lluvia_mm)) := by
  simp only [evaluacion_umbral, getClave, ht, hh, hl, except_bind_ok, except_pure_eq]
  split_ifs with h1 h2 h3 <;> simp_all

theorem evaluacion_ia_ok (datos : DatosClima) (u : Umbrales) (p : Predictor)
    (t h ll : ℚ)
    (ht : datos.temperatura = some t) (hh : datos.humedad = some h)
    (hl : datos.lluvia = some ll) :
    evaluacion_ia datos u p =
      Except.ok (match p.predecir t h ll with
        | none => ((0 : ℚ), false)
        | some res =>
          (res.2, decide (res.2 ≥ u.umbral_ia_probabilidad.getD (0.75 : ℚ)))) := by
  cases hm : p.modelo with
  | none =>
    simp [evaluacion_ia, Predictor.predecir, hm]
  | some m =>
    simp only [evaluacion_ia, getClave, ht, hh, hl, except_bind_ok,
      except_pure_eq, hm]
    cases p.predecir t h ll <;> rfl

theorem construir_mensaje_ok (datos : DatosClima) (pu pia : Bool)
    (prob : ℚ) (t h ll : ℚ)
    (ht : datos.temperatura = some t) (hh : datos.humedad = some h)
    (hl : datos.lluvia = some ll) :
    construir_mensaje_alerta datos pu pia prob =
      Except.ok (mensaje_fragmentos t h ll pu pia prob) := by
  simp [construir_mensaje_alerta, getClave, ht, hh, hl]

theorem analizar_body_eq (datos : DatosClima) (u : Umbrales) (p : Predictor)
    (db : DBOracle) (t h ll : ℚ) (ts c : String)
    (ht : datos.temperatura = some t) (hh : datos.humedad = some h)
    (hl : datos.lluvia = some ll) (hts : datos.timestamp = some ts)
    (hc : datos.clima = some c) :
    ∃ ru ria prob,
      evaluacion_umbral datos u = Except.ok ru ∧
      evaluacion_ia datos u p = Except.ok (prob, ria) ∧
      analizar_body datos u p db = Except.ok (
        if ru || ria then
          Evento.insertHistorico ts t h ll c (datos.viento_kmh.getD 0) ::
            (match db.historicoId with
             | none => []
             | some clima_id =>
               if clima_id = 0 then []
               else
                 Evento.insertAlerta
                     ("riesgo_" ++ (if ria && !ru then "ia" else "umbral"))
                     (mensaje_fragmentos t h ll ru ria prob) clima_id ::
                   (match db.alertaId with
                    | none => []
                    | some alerta_id =>
                      if alerta_id = 0 then []
                      else [Evento.enviarAlertaGeneral
                        (mensaje_fragmentos t h ll ru ria prob) alerta_id]))
        else [Evento.logInfo "Condiciones normales. No se requiere alerta."]) := by
  have hu := evaluacion_umbral_ok datos u t h ll ht hh hl
  have hia := evaluacion_ia_ok datos u p t h ll ht hh hl
  set ru := (decide (t ≥ u.limite_temp_max) || decide (t ≤ u.limite_temp_min) ||
    decide (h ≥ u.limite_humedad) || decide (ll ≥ u.limite_lluvia_mm)) with hru
  set resIA := (match p.predecir t h ll with
    | none => ((0 : ℚ), false)
    | some res =>
      (res.2, decide (res.2 ≥ u.umbral_ia_probabilidad.getD (0.75 : ℚ)))) with hres
  refine ⟨ru, resIA.2, resIA.1, hu, ?_, ?_⟩
  · rw [hia]
  · simp only [analizar_body, hu, hia, except_bind_ok]
    by_cases hcond : (ru || resIA.2) = true
    · simp only [hcond, if_true]
      rw [construir_mensaje_ok datos ru resIA.2 resIA.1 t h ll ht hh hl]
      simp only [getClave, ht, hh, hl, hts, hc, except_bind_ok, except_pure_eq]
      cases db.historicoId with
      | none => rfl
      | some cid =>
        by_cases hcid : cid = 0
        · simp [hcid]
        · simp only [hcid, if_false]
          cases db.alertaId with
          | none => rfl
          | some aid =>
            by_cases haid : aid = 0
            · simp [haid]
            · simp [haid]
    · simp only [hcond, if_false]
      simp at hcond
      simp [hcond.1, hcond.2]

theorem pronostico_dias_mem (u : Umbrales) (dias : List DiaPronostico)
    (hwf : ∀ d ∈ dias, d.fecha ≠ none ∧ d.clima ≠ none)
    (fecha : String) (ll : ℚ) (desc : String) :
    Evento.enviarAlertaPronostico fecha ll desc ∈
        analizar_pronostico_dias dias u ↔
      ∃ d ∈ dias, d.fecha = some fecha ∧ d.lluvia.getD 0 = ll ∧
        d.clima = some desc ∧ ll ≥ u.limite_lluvia_mm := by
  induction dias with
  | nil => simp [analizar_pronostico_dias]
  | cons d resto ih =>
    obtain ⟨hf, hcl⟩ := hwf d (List.mem_cons_self d resto)
    obtain ⟨f, hf2⟩ := Option.ne_none_iff_exists'.mp hf
    obtain ⟨cd, hc2⟩ := Option.ne_none_iff_exists'.mp hcl
    have ihr := ih (fun x hx => hwf x (List.mem_cons_of_mem d hx))
    simp only [analizar_pronostico_dias, hf2, hc2]
    by_cases hll : d.lluvia.getD 0 ≥ u.limite_lluvia_mm
    · rw [if_pos hll]
      simp only [List.mem_cons]
      constructor
      · rintro (habs | hev | hmem)
        · exact absurd habs (by simp)
        · obtain ⟨e1, e2, e3⟩ := Evento.enviarAlertaPronostico.inj hev.symm
          exact ⟨d, Or.inl rfl, hf2.trans (by rw [e1]), e2,
            hc2.trans (by rw [e3]), by rw [← e2]; exact hll⟩
        · obtain ⟨d1, hd1, hp⟩ := ihr.mp hmem
          exact ⟨d1, Or.inr hd1, hp⟩
      · rintro ⟨d1, hd1, hp1, hp2, hp3, hp4⟩
        rcases hd1 with rfl | hd1
        · right; left
          rw [hf2] at hp1
          rw [hc2] at hp3
          simp only [Option.some.injEq] at hp1 hp3
          rw [hp1, hp2, hp3]
        · right; right
          exact ihr.mpr ⟨d1, hd1, hp1, hp2, hp3, hp4⟩
    · rw [if_neg hll]
      rw [ihr]
      constructor
      · rintro ⟨d1, hd1, hp⟩
        exact ⟨d1, List.mem_cons_of_mem d hd1, hp⟩
      · rintro ⟨d1, hd1, hp1, hp2, hp3, hp4⟩
        rcases List.mem_cons.mp hd1 with rfl | hd1
        · rw [hp2] at hll
          exact absurd hp4 hll
        · exact ⟨d1, hd1, hp1, hp2, hp3, hp4⟩

theorem pronostico_dias_sin_persistencia (u : Umbrales)
    (dias : List DiaPronostico) :
    ∀ e ∈ analizar_pronostico_dias dias u, esPersistencia e = false := by
  induction dias with
  | nil => simp [analizar_pronostico_dias]
  | cons d resto ih =>
    intro e he
    cases hf : d.fecha with
    | none =>
      simp only [analizar_pronostico_dias, hf, List.mem_singleton] at he
      rw [he]; rfl
    | some f =>
      simp only [analizar_pronostico_dias, hf] at he
      by_cases hll : d.lluvia.getD 0 ≥ u.limite_lluvia_mm
      · rw [if_pos hll] at he
        cases hc : d.clima with
        | none =>
          simp only [hc, List.mem_singleton] at he
          rw [he]; rfl
        | some cd =>
          simp only [hc, List.mem_cons] at he
          rcases he with he | he | he
          · rw [he]; rfl
          · rw [he]; rfl
          · exact ih e he
      · rw [if_neg hll] at he
        exact ih e he

theorem pronostico_dias_sin_lluvia (u : Umbrales)
    (hpos : 0 < u.limite_lluvia_mm) (dias : List DiaPronostico)
    (hnl : ∀ d ∈ dias, d.lluvia = none) (fecha : String) (ll : ℚ)
    (desc : String) :
    Evento.enviarAlertaPronostico fecha ll desc ∉
      analizar_pronostico_dias dias u := by
  induction dias with
  | nil => simp [analizar_pronostico_dias]
  | cons d resto ih =>
    have hd := hnl d (List.mem_cons_self d resto)
    have ihr := ih (fun x hx => hnl x (List.mem_cons_of_mem d hx))
    simp only [analizar_pronostico_dias, hd]
    cases hf : d.fecha with
    | none => simp [hf]
    | some f =>
      have hll : ¬ ((none : Option ℚ).getD 0 ≥ u.limite_lluvia_mm) := by
        simp
        exact hpos
      simp only [hf]
      rw [if_neg hll]
      exact ihr

theorem zip_unzip_filas (filas : List ((ℚ × ℚ × ℚ) × ℕ)) :
    (filas.map Prod.fst).zip (filas.map Prod.snd) = filas := by
  rw [List.zip_map']
  simp

/-- C1: for every well-formed reading and threshold snapshot, the final
decision of the Decision Engine is alert iff the rule disjunction holds
(temperature at or above the max, at or below the min, humidity or rain at or
above their limits - all bounds inclusive) or a loaded model produced a risk
probability at or above umbral_ia_probabilidad (default 0.75 when unset); with
no model loaded the decision is the rule disjunction alone. The alert branch
(the insertHistorico attempt) is taken exactly when the decision is alert. -/
theorem decision_alerta_iff (datos : DatosClima) (u : Umbrales) (p : Predictor)
    (t h ll : ℚ) (ts c : String)
    (ht : datos.temperatura = some t) (hh : datos.humedad = some h)
    (hl : datos.lluvia = some ll) (hts : datos.timestamp = some ts)
    (hc : datos.clima = some c) :
    ∃ b, decision_final datos u p = Except.ok b ∧
      (b = true ↔
        ((t ≥ u.limite_temp_max ∨ t ≤ u.limite_temp_min ∨ h ≥ u.limite_humedad ∨
          ll ≥ u.limite_lluvia_mm) ∨
        (∃ m cls prob, p.modelo = some m ∧ m (t, h, ll) = some (cls, prob) ∧
          prob ≥ u.umbral_ia_probabilidad.getD (0.75 : ℚ)))) ∧
      ∀ db : DBOracle,
        ((∃ ts2 t2 h2 l2 c2 v2,
            Evento.insertHistorico ts2 t2 h2 l2 c2 v2 ∈ analizar datos u p db) ↔
          b = true) := by
  have hu := evaluacion_umbral_ok datos u t h ll ht hh hl
  have hia := evaluacion_ia_ok datos u p t h ll ht hh hl
  set ru := (decide (t ≥ u.limite_temp_max) || decide (t ≤ u.limite_temp_min) ||
    decide (h ≥ u.limite_humedad) || decide (ll ≥ u.limite_lluvia_mm)) with hru
  set resIA := (match p.predecir t h ll with
    | none => ((0 : ℚ), false)
    | some res =>
      (res.2, decide (res.2 ≥ u.umbral_ia_probabilidad.getD (0.75 : ℚ)))) with hres
  refine ⟨ru || resIA.2, ?_, ?_, ?_⟩
  · simp [decision_final, hu, hia]
  · constructor
    · intro hb
      rcases Bool.or_eq_true_iff.mp hb with hb1 | hb2
      · left
        rw [hru] at hb1
        simp at hb1
        tauto
      · right
        rw [hres] at hb2
        cases hm : p.modelo with
        | none => simp [Predictor.predecir, hm] at hb2
        | some m =>
          cases hpred : m (t, h, ll) with
          | none => simp [Predictor.predecir, hm, hpred] at hb2
          | some res =>
            simp only [Predictor.predecir, hm, hpred] at hb2
            simp only [decide_eq_true_eq] at hb2
            exact ⟨m, res.1, res.2, rfl, by simpa using hpred, hb2⟩
    · intro hb
      rcases hb with hb1 | ⟨m, cls, prob, hm, hpred, hprob⟩
      · apply Bool.or_eq_true_iff.mpr; left
        rw [hru]
        simp
        tauto
      · apply Bool.or_eq_true_iff.mpr; right
        rw [hres]
        simp [Predictor.predecir, hm, hpred, hprob]
  · intro db
    obtain ⟨ru2, ria2, prob2, hu2, hia2, hbody2⟩ :=
      analizar_body_eq datos u p db t h ll ts c ht hh hl hts hc
    rw [hu] at hu2
    rw [hia] at hia2
    have hru2 : ru2 = ru := (Except.ok.inj hu2).symm
    have hpair : resIA = (prob2, ria2) := Except.ok.inj hia2
    have hria2 : ria2 = resIA.2 := by rw [hpair]
    rw [hru2, hria2] at hbody2
    by_cases hcond : (ru || resIA.2) = true
    · constructor
      · intro _; exact hcond
      · intro _
        refine ⟨ts, t, h, ll, c, datos.viento_kmh.getD 0, ?_⟩
        simp only [analizar, hbody2, hcond, if_true]
        exact List.mem_cons_self _ _
    · have hcond2 : (ru || resIA.2) = false := Bool.eq_false_iff.mpr hcond
      constructor
      · rintro ⟨ts2, t2, h2, l2, c2, v2, hmem⟩
        simp only [analizar, hbody2, hcond2, Bool.false_eq_true, if_false] at hmem
        simp at hmem
      · intro hb
        exact absurd hb hcond

/-- Concrete instantiation of the preceding theorem. -/
theorem decision_alerta_iff_witness :
    ∃ b, decision_final datosEjemplo umbralesEjemplo predictorVacio =
        Except.ok b ∧
      (b = true ↔
        (((38 : ℚ) ≥ umbralesEjemplo.limite_temp_max ∨
          (38 : ℚ) ≤ umbralesEjemplo.limite_temp_min ∨
          (50 : ℚ) ≥ umbralesEjemplo.limite_humedad ∨
          (0 : ℚ) ≥ umbralesEjemplo.limite_lluvia_mm) ∨
        (∃ m cls prob, predictorVacio.modelo = some m ∧
          m ((38 : ℚ), (50 : ℚ), (0 : ℚ)) = some (cls, prob) ∧
          prob ≥ umbralesEjemplo.umbral_ia_probabilidad.getD (0.75 : ℚ)))) ∧
      ∀ db : DBOracle,
        ((∃ ts2 t2 h2 l2 c2 v2,
            Evento.insertHistorico ts2 t2 h2 l2 c2 v2 ∈
              analizar datosEjemplo umbralesEjemplo predictorVacio db) ↔
          b = true) :=
  decision_alerta_iff datosEjemplo umbralesEjemplo predictorVacio 38 50 0
    "2024-01-01 12:00" "Cielo claro" rfl rfl rfl rfl rfl

/-- C2: whenever an alert record is inserted, its kind is "riesgo_ia" (the
source spelling of risk_model) iff the model path fired and the threshold
path did not; in every other alerting case the kind is "riesgo_umbral"
(risk_threshold), so threshold takes label priority when both fire. -/
theorem alerta_tipo_prioridad (datos : DatosClima) (u : Umbrales)
    (p : Predictor) (db : DBOracle) (t h ll : ℚ) (ts c : String)
    (ru ria : Bool) (prob : ℚ)
    (ht : datos.temperatura = some t) (hh : datos.humedad = some h)
    (hl : datos.lluvia = some ll) (hts : datos.timestamp = some ts)
    (hc : datos.clima = some c)
    (hru : evaluacion_umbral datos u = Except.ok ru)
    (hria : evaluacion_ia datos u p = Except.ok (prob, ria)) :
    ∀ tipo msg cid, Evento.insertAlerta tipo msg cid ∈ analizar datos u p db →
      ((tipo = "riesgo_ia" ↔ (ria = true ∧ ru = false)) ∧
       (tipo = "riesgo_umbral" ↔ ¬(ria = true ∧ ru = false))) := by
  obtain ⟨ru2, ria2, prob2, hu2, hia2, hbody2⟩ :=
    analizar_body_eq datos u p db t h ll ts c ht hh hl hts hc
  rw [hru] at hu2
  rw [hria] at hia2
  have hru2 : ru2 = ru := (Except.ok.inj hu2).symm
  have hpair : (prob, ria) = (prob2, ria2) := Except.ok.inj hia2
  have hria2 : ria2 = ria := by
    have := congrArg Prod.snd hpair
    simpa using this.symm
  rw [hru2, hria2] at hbody2
  intro tipo msg cid hmem
  rw [analizar, hbody2] at hmem
  by_cases hcond : (ru || ria) = true
  · rw [if_pos hcond] at hmem
    rcases db with ⟨hid, aid⟩
    cases hid with
    | none => simp at hmem
    | some cid0 =>
      by_cases hcid : cid0 = 0
      · simp [hcid] at hmem
      · simp only [hcid, if_false] at hmem
        cases aid with
        | none =>
          simp at hmem
          have htipo := hmem.2.1
          subst htipo
          cases ria <;> cases ru <;> simp_all
        | some aid0 =>
          by_cases haid : aid0 = 0
          · simp [haid] at hmem
            have htipo := hmem.2.1
            subst htipo
            cases ria <;> cases ru <;> simp_all
          · simp [haid] at hmem
            have htipo := hmem.2.1
            subst htipo
            cases ria <;> cases ru <;> simp_all
  · rw [if_neg hcond] at hmem
    simp at hmem

/-- Concrete instantiation of the preceding theorem. -/
theorem alerta_tipo_prioridad_witness :
    ("riesgo_umbral" = "riesgo_ia" ↔ (false = true ∧ true = false)) ∧
    ("riesgo_umbral" = "riesgo_umbral" ↔ ¬(false = true ∧ true = false)) :=
  alerta_tipo_prioridad datosEjemplo umbralesEjemplo predictorVacio
    oraculoEjemplo 38 50 0 "2024-01-01 12:00" "Cielo claro" true false 0
    rfl rfl rfl rfl rfl (by rfl) (by rfl) "riesgo_umbral"
    (mensaje_fragmentos 38 50 0 true false 0) 1 (by decide)

/-- C3: on a no-alert decision nothing is persisted or delivered (only the
normal-conditions log line is emitted); on an alert decision the Reading is
persisted first, then - when an id is returned - the Alert referencing that
id, then - when an alert id is returned - the delivery tagged with it; a
failed Reading insert (no id) stops the Alert and the delivery, and a failed
Alert insert stops the delivery. -/
theorem efectos_en_alerta (datos : DatosClima) (u : Umbrales) (p : Predictor)
    (db : DBOracle) (t h ll : ℚ) (ts c : String)
    (ht : datos.temperatura = some t) (hh : datos.humedad = some h)
    (hl : datos.lluvia = some ll) (hts : datos.timestamp = some ts)
    (hc : datos.clima = some c)
    (hdb1 : ∀ i, db.historicoId = some i → 0 < i)
    (hdb2 : ∀ i, db.alertaId = some i → 0 < i) :
    ∃ b, decision_final datos u p = Except.ok b ∧
      (b = false →
        analizar datos u p db =
          [Evento.logInfo "Condiciones normales. No se requiere alerta."]) ∧
      (b = true → ∃ tipo msg,
        analizar datos u p db =
          Evento.insertHistorico ts t h ll c (datos.viento_kmh.getD 0) ::
            (match db.historicoId with
             | none => []
             | some clima_id =>
               Evento.insertAlerta tipo msg clima_id ::
                 (match db.alertaId with
                  | none => []
                  | some alerta_id =>
                    [Evento.enviarAlertaGeneral msg alerta_id]))) := by
  obtain ⟨ru, ria, prob, hu, hia, hbody⟩ :=
    analizar_body_eq datos u p db t h ll ts c ht hh hl hts hc
  refine ⟨ru || ria, ?_, ?_, ?_⟩
  · simp [decision_final, hu, hia]
  · intro hb
    rw [analizar, hbody, hb]
    simp
  · intro hb
    refine ⟨"riesgo_" ++ (if ria && !ru then "ia" else "umbral"),
      mensaje_fragmentos t h ll ru ria prob, ?_⟩
    rw [analizar, hbody, if_pos hb]
    rcases db with ⟨hid, aid⟩
    cases hid with
    | none => rfl
    | some cid =>
      have hcid : ¬ cid = 0 := by
        have := hdb1 cid rfl
        omega
      simp only [hcid, if_false]
      cases aid with
      | none => rfl
      | some aid0 =>
        have haid : ¬ aid0 = 0 := by
          have := hdb2 aid0 rfl
          omega
        simp only [haid, if_false]

/-- Concrete instantiation of the preceding theorem. -/
theorem efectos_en_alerta_witness :
    ∃ b, decision_final datosEjemplo umbralesEjemplo predictorVacio =
        Except.ok b ∧
      (b = false →
        analizar datosEjemplo umbralesEjemplo predictorVacio oraculoEjemplo =
          [Evento.logInfo "Condiciones normales. No se requiere alerta."]) ∧
      (b = true → ∃ tipo msg,
        analizar datosEjemplo umbralesEjemplo predictorVacio oraculoEjemplo =
          Evento.insertHistorico "2024-01-01 12:00" 38 50 0 "Cielo claro"
              (datosEjemplo.viento_kmh.getD 0) ::
            (match oraculoEjemplo.historicoId with
             | none => []
             | some clima_id =>
               Evento.insertAlerta tipo msg clima_id ::
                 (match oraculoEjemplo.alertaId with
                  | none => []
                  | some alerta_id =>
                    [Evento.enviarAlertaGeneral msg alerta_id]))) :=
  efectos_en_alerta datosEjemplo umbralesEjemplo predictorVacio oraculoEjemplo
    38 50 0 "2024-01-01 12:00" "Cielo claro" rfl rfl rfl rfl rfl
    (by intro i hi; simp [oraculoEjemplo] at hi; omega)
    (by intro i hi; simp [oraculoEjemplo] at hi; omega)

/-- C4: the evaluation never propagates an exception: either the body
succeeds and its events are returned, or the body raises and the call still
returns normally with the critical log and the notifier error-channel report;
in particular a reading missing the temperatura key is caught this way. -/
theorem analizar_no_propaga (datos : DatosClima) (u : Umbrales)
    (p : Predictor) (db : DBOracle) :
    ((∃ evs, analizar_body datos u p db = Except.ok evs ∧
        analizar datos u p db = evs) ∨
     (∃ e, analizar_body datos u p db = Except.error e ∧
        analizar datos u p db =
          [Evento.logCritical
             ("Error crítico en el proceso de análisis híbrido: " ++ e),
           Evento.sendErrorNotif "analizador_hibrido" e])) ∧
    (datos.temperatura = none →
      analizar datos u p db =
        [Evento.logCritical
           "Error crítico en el proceso de análisis híbrido: KeyError: temperatura",
         Evento.sendErrorNotif "analizador_hibrido" "KeyError: temperatura"]) := by
  constructor
  · cases hb : analizar_body datos u p db with
    | ok evs => exact Or.inl ⟨evs, rfl, by rw [analizar, hb]⟩
    | error e => exact Or.inr ⟨e, rfl, by rw [analizar, hb]⟩
  · intro hnone
    have hbody : analizar_body datos u p db =
        Except.error "KeyError: temperatura" := by
      simp [analizar_body, evaluacion_umbral, getClave, hnone]
    rw [analizar, hbody]
    rfl

/-- Concrete instantiation of the preceding theorem. -/
theorem analizar_no_propaga_witness :
    analizar datosMalformado umbralesEjemplo predictorVacio oraculoEjemplo =
      [Evento.logCritical
         "Error crítico en el proceso de análisis híbrido: KeyError: temperatura",
       Evento.sendErrorNotif "analizador_hibrido" "KeyError: temperatura"] :=
  (analizar_no_propaga datosMalformado umbralesEjemplo predictorVacio
    oraculoEjemplo).2 rfl

/-- C5: with no loadable rows, or fewer than 20 valid rows,
entrenar_y_guardar only logs the insufficient-data warning: no split, fit,
report or save event is emitted, the artifact file is unchanged, and a
subsequently created adapter still loads the prior artifact. -/
theorem gate_minimo_datos (sk : Sklearn) (db : BaseDatos) (dump_ok : Bool)
    (archivo : Option Modelo)
    (hpocos : cargar_datos_entrenamiento db = none ∨
      ∃ X y, cargar_datos_entrenamiento db = some (X, y) ∧ X.length < 20) :
    ∃ n, entrenar_y_guardar sk db dump_ok archivo =
        ([EventoEntrenamiento.avisoInsuficiente n], archivo) ∧
      cargar_modelo (entrenar_y_guardar sk db dump_ok archivo).2 =
        cargar_modelo archivo := by
  rcases hpocos with hnone | ⟨X, y, hsome, hlen⟩
  · refine ⟨0, ?_, ?_⟩ <;> simp [entrenar_y_guardar, hnone, cargar_modelo]
  · refine ⟨X.length, ?_, ?_⟩ <;>
      simp [entrenar_y_guardar, hsome, hlen, cargar_modelo]

/-- Concrete instantiation of the preceding theorem. -/
theorem gate_minimo_datos_witness :
    ∃ n, entrenar_y_guardar skEjemplo dbVacia false none =
        ([EventoEntrenamiento.avisoInsuficiente n], none) ∧
      cargar_modelo (entrenar_y_guardar skEjemplo dbVacia false none).2 =
        cargar_modelo none :=
  gate_minimo_datos skEjemplo dbVacia false none (Or.inl rfl)

/-- C6: every training row comes from a joined Feedback-Alert-Reading record
whose feedback is "bien" or "mal" and whose three numeric features are all
non-null; the label is 1 iff the feedback is "mal" and 0 iff it is "bien".
Rows with a null feature or an unrecognized label yield no training row,
since every produced row is accounted for by such a valid record. -/
theorem filas_entrenamiento_validas (db : BaseDatos) (X : List (ℚ × ℚ × ℚ))
    (y : List ℕ) (hcarga : cargar_datos_entrenamiento db = some (X, y)) :
    X.length = y.length ∧
    ∀ fila ∈ X.zip y, ∃ f ∈ db.feedback_usuario, ∃ a ∈ db.alertas_emitidas,
      ∃ hr ∈ db.historico, f.alerta_id = a.id ∧ a.clima_id = hr.id ∧
        (f.feedback = "bien" ∨ f.feedback = "mal") ∧
        hr.temperatura = some fila.1.1 ∧ hr.humedad = some fila.1.2.1 ∧
        hr.lluvia = some fila.1.2.2 ∧
        (fila.2 = 1 ↔ f.feedback = "mal") ∧
        (fila.2 = 0 ↔ f.feedback = "bien") := by
  rw [cargar_datos_entrenamiento] at hcarga
  by_cases hvacia : (consulta_entrenamiento db).isEmpty
  · rw [if_pos hvacia] at hcarga
    exact absurd hcarga (by simp)
  · rw [if_neg hvacia] at hcarga
    simp only [Option.some.injEq, Prod.mk.injEq] at hcarga
    obtain ⟨hX, hY⟩ := hcarga
    constructor
    · rw [← hX, ← hY]
      simp
    · intro fila hfila
      rw [← hX, ← hY, zip_unzip_filas] at hfila
      obtain ⟨r, hrmem, hfn⟩ := List.mem_filterMap.mp hfila
      obtain ⟨t?, h?, l?, fb⟩ := r
      cases t? with
      | none => simp at hfn
      | some tv =>
        cases h? with
        | none => simp at hfn
        | some hv =>
          cases l? with
          | none => simp at hfn
          | some lv =>
            simp only [Option.some.injEq] at hfn
            obtain ⟨f, hfmem, hr2⟩ := List.mem_flatMap.mp hrmem
            obtain ⟨a, hamem, hr3⟩ := List.mem_flatMap.mp hr2
            obtain ⟨hrow, hrowmem, heq⟩ := List.mem_map.mp hr3
            obtain ⟨hhistmem, hcond⟩ := List.mem_filter.mp hrowmem
            simp only [Bool.and_eq_true, beq_iff_eq, Bool.or_eq_true,
              Option.isSome_iff_exists] at hcond
            obtain ⟨⟨⟨hid1, hid2⟩, _⟩, hfb⟩ := hcond
            simp only [Prod.mk.injEq] at heq
            obtain ⟨he1, he2, he3, he4⟩ := heq
            subst he4
            refine ⟨f, hfmem, a, hamem, hrow, hhistmem, hid1, hid2, hfb,
              ?_, ?_, ?_, ?_, ?_⟩
            · rw [he1, ← hfn]
            · rw [he2, ← hfn]
            · rw [he3, ← hfn]
            · rw [← hfn]
              rcases hfb with hb | hb <;> simp [hb]
            · rw [← hfn]
              rcases hfb with hb | hb <;> simp [hb]

/-- Concrete instantiation of the preceding theorem. -/
theorem filas_entrenamiento_validas_witness :
    (List.replicate 20 ((30 : ℚ), (80 : ℚ), (5 : ℚ))).length =
      (List.replicate 20 (0 : ℕ)).length ∧
    ∀ fila ∈ (List.replicate 20 ((30 : ℚ), (80 : ℚ), (5 : ℚ))).zip
        (List.replicate 20 (0 : ℕ)),
      ∃ f ∈ dbVeinte.feedback_usuario, ∃ a ∈ dbVeinte.alertas_emitidas,
        ∃ hr ∈ dbVeinte.historico, f.alerta_id = a.id ∧ a.clima_id = hr.id ∧
          (f.feedback = "bien" ∨ f.feedback = "mal") ∧
          hr.temperatura = some fila.1.1 ∧ hr.humedad = some fila.1.2.1 ∧
          hr.lluvia = some fila.1.2.2 ∧
          (fila.2 = 1 ↔ f.feedback = "mal") ∧
          (fila.2 = 0 ↔ f.feedback = "bien") :=
  filas_entrenamiento_validas dbVeinte
    (List.replicate 20 ((30 : ℚ), (80 : ℚ), (5 : ℚ)))
    (List.replicate 20 (0 : ℕ)) rfl

/-- C7: for a well-formed forecast sequence, a forecast advisory is emitted
exactly for the entries among the first two whose rain (default 0) is at or
above limite_lluvia_mm - entries beyond the first two never produce one -
and no event of the forecast path is a persistence (insert) event. -/
theorem pronostico_solo_dos_primeros (pron : List DiaPronostico) (u : Umbrales)
    (hwf : ∀ d ∈ pron, d.fecha ≠ none ∧ d.clima ≠ none) :
    (∀ fecha ll desc,
      Evento.enviarAlertaPronostico fecha ll desc ∈
          analizar_pronostico pron u ↔
        ∃ d ∈ pron.take 2, d.fecha = some fecha ∧ d.lluvia.getD 0 = ll ∧
          d.clima = some desc ∧ ll ≥ u.limite_lluvia_mm) ∧
    (∀ e ∈ analizar_pronostico pron u, esPersistencia e = false) := by
  have hwf2 : ∀ d ∈ pron.take 2, d.fecha ≠ none ∧ d.clima ≠ none :=
    fun d hd => hwf d (List.take_subset 2 pron hd)
  constructor
  · intro fecha ll desc
    rw [analizar_pronostico]
    constructor
    · intro hmem
      rcases List.mem_cons.mp hmem with habs | hmem2
      · exact absurd habs (by simp)
      · exact (pronostico_dias_mem u _ hwf2 fecha ll desc).mp hmem2
    · intro hex
      exact List.mem_cons_of_mem _
        ((pronostico_dias_mem u _ hwf2 fecha ll desc).mpr hex)
  · intro e he
    rcases List.mem_cons.mp he with rfl | he2
    · rfl
    · exact pronostico_dias_sin_persistencia u _ e he2

/-- Concrete instantiation of the preceding theorem. -/
theorem pronostico_solo_dos_primeros_witness :
    (∀ fecha ll desc,
      Evento.enviarAlertaPronostico fecha ll desc ∈
          analizar_pronostico pronEjemplo umbralesEjemplo ↔
        ∃ d ∈ pronEjemplo.take 2, d.fecha = some fecha ∧
          d.lluvia.getD 0 = ll ∧ d.clima = some desc ∧
          ll ≥ umbralesEjemplo.limite_lluvia_mm) ∧
    (∀ e ∈ analizar_pronostico pronEjemplo umbralesEjemplo,
      esPersistencia e = false) :=
  pronostico_solo_dos_primeros pronEjemplo umbralesEjemplo (by decide)

/-- C8: past the 20-row gate with a successful dump, the newly fit model is
persisted as the artifact unconditionally: the classification report is
computed and logged but replacing it by any other report function leaves the
persisted artifact unchanged, so metrics never gate persistence. -/
theorem persistencia_incondicional (sk : Sklearn) (db : BaseDatos)
    (archivo : Option Modelo) (X : List (ℚ × ℚ × ℚ)) (y : List ℕ)
    (hcarga : cargar_datos_entrenamiento db = some (X, y))
    (hn : 20 ≤ X.length) :
    (entrenar_y_guardar sk db true archivo).2 =
      some (sk.fit (sk.train_test_split X y).1 (sk.train_test_split X y).2.2.1) ∧
    (∃ rep, EventoEntrenamiento.reporteClasif rep ∈
      (entrenar_y_guardar sk db true archivo).1) ∧
    ∀ sk2 : Sklearn, sk2.train_test_split = sk.train_test_split →
      sk2.fit = sk.fit → sk2.predict = sk.predict →
      (entrenar_y_guardar sk2 db true archivo).2 =
        (entrenar_y_guardar sk db true archivo).2 := by
  have hlen : ¬ X.length < 20 := by omega
  refine ⟨?_, ?_, ?_⟩
  · simp [entrenar_y_guardar, hcarga, hlen]
  · refine ⟨sk.classification_report (sk.train_test_split X y).2.2.2
      (sk.predict (sk.fit (sk.train_test_split X y).1
        (sk.train_test_split X y).2.2.1) (sk.train_test_split X y).2.1), ?_⟩
    simp [entrenar_y_guardar, hcarga, hlen]
  · intro sk2 hsplit hfit hpred
    simp [entrenar_y_guardar, hcarga, hlen, hsplit, hfit, hpred]

/-- Concrete instantiation of the preceding theorem. -/
theorem persistencia_incondicional_witness :
    (entrenar_y_guardar skEjemplo dbVeinte true none).2 =
      some (skEjemplo.fit
        (skEjemplo.train_test_split
          (List.replicate 20 ((30 : ℚ), (80 : ℚ), (5 : ℚ)))
          (List.replicate 20 (0 : ℕ))).1
        (skEjemplo.train_test_split
          (List.replicate 20 ((30 : ℚ), (80 : ℚ), (5 : ℚ)))
          (List.replicate 20 (0 : ℕ))).2.2.1) ∧
    (∃ rep, EventoEntrenamiento.reporteClasif rep ∈
      (entrenar_y_guardar skEjemplo dbVeinte true none).1) ∧
    ∀ sk2 : Sklearn, sk2.train_test_split = skEjemplo.train_test_split →
      sk2.fit = skEjemplo.fit → sk2.predict = skEjemplo.predict →
      (entrenar_y_guardar sk2 dbVeinte true none).2 =
        (entrenar_y_guardar skEjemplo dbVeinte true none).2 :=
  persistencia_incondicional skEjemplo dbVeinte none
    (List.replicate 20 ((30 : ℚ), (80 : ℚ), (5 : ℚ)))
    (List.replicate 20 (0 : ℕ)) rfl (by decide)

/-- C9: the composed alert message mentions "Umbrales Superados" iff the
threshold path fired and "Predicción IA" iff the model path fired, always
interpolates the raw temperature, humidity and rain values, and carries the
risk probability formatted as a percentage (hence whenever the model path
produced one). -/
theorem mensaje_contenido (datos : DatosClima) (t h ll prob : ℚ)
    (pu pia : Bool)
    (ht : datos.temperatura = some t) (hh : datos.humedad = some h)
    (hl : datos.lluvia = some ll) :
    ∃ frags, construir_mensaje_alerta datos pu pia prob = Except.ok frags ∧
      menciona frags "Umbrales Superados" = pu ∧
      menciona frags "Predicción IA" = pia ∧
      Fragmento.num t ∈ frags ∧ Fragmento.num h ∈ frags ∧
      Fragmento.num ll ∈ frags ∧ Fragmento.pct prob ∈ frags := by
  refine ⟨mensaje_fragmentos t h ll pu pia prob,
    construir_mensaje_ok datos pu pia prob t h ll ht hh hl, ?_, ?_, ?_, ?_, ?_, ?_⟩ <;>
    cases pu <;> cases pia <;>
      simp [mensaje_fragmentos, menciona, fragmento_menciona] <;> decide

/-- Concrete instantiation of the preceding theorem. -/
theorem mensaje_contenido_witness :
    ∃ frags, construir_mensaje_alerta datosEjemplo true false (9 / 10) =
        Except.ok frags ∧
      menciona frags "Umbrales Superados" = true ∧
      menciona frags "Predicción IA" = false ∧
      Fragmento.num 38 ∈ frags ∧ Fragmento.num 50 ∈ frags ∧
      Fragmento.num 0 ∈ frags ∧ Fragmento.pct (9 / 10) ∈ frags :=
  mensaje_contenido datosEjemplo 38 50 0 (9 / 10) true false rfl rfl rfl

/-- C10: the forecast scan is total on sequences of any length: an empty
sequence yields only the starting log line, a single well-formed entry is
processed without any error event, and an entry lacking a rain value is
treated as 0 mm, so with a positive limite_lluvia_mm a sequence of such
entries never emits an advisory. -/
theorem pronostico_total (u : Umbrales) (hpos : 0 < u.limite_lluvia_mm) :
    analizar_pronostico [] u =
      [Evento.logInfo "Analizando pronóstico extendido..."] ∧
    (∀ d : DiaPronostico, d.fecha ≠ none → d.clima ≠ none →
      ∀ s, Evento.logError s ∉ analizar_pronostico [d] u) ∧
    (∀ pron : List DiaPronostico, (∀ d ∈ pron, d.lluvia = none) →
      ∀ fecha ll desc,
        Evento.enviarAlertaPronostico fecha ll desc ∉
          analizar_pronostico pron u) := by
  refine ⟨rfl, ?_, ?_⟩
  · intro d hf hc s
    obtain ⟨f, hf2⟩ := Option.ne_none_iff_exists'.mp hf
    obtain ⟨cd, hc2⟩ := Option.ne_none_iff_exists'.mp hc
    simp only [analizar_pronostico, List.take, analizar_pronostico_dias,
      hf2, hc2]
    by_cases hll : d.lluvia.getD 0 ≥ u.limite_lluvia_mm
    · rw [if_pos hll]; simp
    · rw [if_neg hll]; simp
  · intro pron hnl fecha ll desc hmem
    rcases List.mem_cons.mp hmem with habs | hmem2
    · exact absurd habs (by simp)
    · exact pronostico_dias_sin_lluvia u hpos _
        (fun d hd => hnl d (List.take_subset 2 pron hd)) fecha ll desc hmem2

/-- Concrete instantiation of the preceding theorem. -/
theorem pronostico_total_witness :
    analizar_pronostico [] umbralesEjemplo =
      [Evento.logInfo "Analizando pronóstico extendido..."] ∧
    (∀ d : DiaPronostico, d.fecha ≠ none → d.clima ≠ none →
      ∀ s, Evento.logError s ∉ analizar_pronostico [d] umbralesEjemplo) ∧
    (∀ pron : List DiaPronostico, (∀ d ∈ pron, d.lluvia = none) →
      ∀ fecha ll desc,
        Evento.enviarAlertaPronostico fecha ll desc ∉
          analizar_pronostico pron umbralesEjemplo) :=
  pronostico_total umbralesEjemplo (by decide)

